import Mathlib

/-!
Verification of the Java tool installer task (JavaToolInstallerV0).

The definitions below are a shallow embedding of the installer source
(the module containing `run`, `getJava`, `installJDK`, `getVolumePath`,
`getPackagePath`, `installPkg`, `runPkgInstaller`, `attach`, `detach`,
`getSupportedFileEnding`, `buildFilePath`).

Modelling conventions:
- Filesystem reads (`fs.readdirSync`, `fs.existsSync`) and task-variable
  lookups (`taskLib.getVariable`) are supplied by an `Env` record: the
  orchestrator only observes these values, it never computes them.
- External process invocations (`hdiutil attach`, `hdiutil detach`,
  `installer`) are modelled by an `ExecOutcome` per invocation stored in
  `Env`; `execPromise` gives the promise semantics of `ToolRunner.exec`:
  the promise resolves on exit code 0 and rejects both on a non-zero exit
  code and on a launch failure (the rejection is what `await` turns into
  a thrown error).
- Localized messages (`taskLib.loc`) are modelled by their message keys.
- `path.join` is modelled as separator concatenation, which agrees with
  Node's `path.join` on the separator-free segment names produced here.
- Thrown errors / rejected promises are `Except.error`; the performed
  privileged actions are reported alongside the result as a trace of
  `TaskAction`s so that claims of the form "the installer is never invoked"
  are statable.
-/

/-- Outcome of spawning one external process: either the executable could
not be launched at all, or it ran and exited with a code. -/
inductive ExecOutcome where
  | launchFailed (message : String)
  | exited (code : Nat)
deriving DecidableEq, Repr

/-- Promise semantics of `ToolRunner.exec()`: resolves on exit code 0,
rejects (throws at the `await`) on a launch failure or a non-zero exit. -/
def execPromise : ExecOutcome → Except String Unit
  | ExecOutcome.launchFailed message => Except.error message
  | ExecOutcome.exited 0 => Except.ok ()
  | ExecOutcome.exited code => Except.error ("Process exited with code " ++ toString code)

/-- Privileged external actions the orchestrator can run. -/
inductive TaskAction where
  | attach
  | runInstaller
  | detach
deriving DecidableEq, Repr

/-- Source constant `supportedFileEndings = ['.tar', '.tar.gz', '.zip', '.7z', '.dmg', '.pkg']`. -/
def supportedFileEndings : List String := [".tar", ".tar.gz", ".zip", ".7z", ".dmg", ".pkg"]

/-- Source constant `VOLUMES_FOLDER = '/Volumes'`. -/
def VOLUMES_FOLDER : String := "/Volumes"

/-- Source constant `JDK_FOLDER = '/Library/Java/JavaVirtualMachines'`. -/
def JDK_FOLDER : String := "/Library/Java/JavaVirtualMachines"

/-- Source constant `JDK_HOME_FOLDER = 'Contents/Home'`. -/
def JDK_HOME_FOLDER : String := "Contents/Home"

/-- Constant `BIN_FOLDER` imported from `JavaFilesExtractor`. -/
def BIN_FOLDER : String := "bin"

/-- Models `path.join(a, b)` on the segment shapes used by the task. -/
def pathJoin (a b : String) : String := a ++ "/" ++ b

/-- The directory-diff pattern used twice in the source:
`fs.readdirSync(dir).filter(entry => !before.has(entry))`, where `before`
is a `Set` snapshot of the same directory taken earlier. -/
def diffEntries (before after : List String) : List String :=
  after.filter (fun entry => !(before.contains entry))

/-- Environment observed by one `installJDK`/`getJava` call: directory
listings, task variables, file existence, and the outcome of each external
process invocation. -/
structure Env where
  /-- Value of `os.platform()`. -/
  platform : String
  /-- Listing `fs.readdirSync(VOLUMES_FOLDER)` taken before `attach`. -/
  volumesBefore : List String
  /-- Listing `fs.readdirSync(VOLUMES_FOLDER)` taken inside `getVolumePath`, after `attach`. -/
  volumesAfterAttach : List String
  /-- Listing `fs.readdirSync(volumePath)` of the mounted volume. -/
  volumeContents : List String
  /-- Listing `fs.readdirSync(JDK_FOLDER)` taken before `runPkgInstaller`. -/
  jdksBefore : List String
  /-- Listing `fs.readdirSync(JDK_FOLDER)` taken after `runPkgInstaller`. -/
  jdksAfterInstall : List String
  /-- Lookup `taskLib.getVariable`. -/
  getVariable : String → Option String
  /-- Predicate `fs.existsSync`. -/
  fsExists : String → Bool
  /-- Outcome of the `hdiutil attach` invocation. -/
  attachResult : ExecOutcome
  /-- Outcome of the `installer` invocation. -/
  installerResult : ExecOutcome
  /-- Outcome of the `hdiutil detach` invocation. -/
  detachResult : ExecOutcome
  /-- Result of `JavaFilesExtractor.unzipJavaDownload` (excluded collaborator). -/
  extractorResult : Except String String

/-- Task inputs read through `taskLib.getInput`/`getPathInput`/`getBoolInput`,
plus the local tool-cache lookup result
(`toolLib.evaluateVersions(toolLib.findLocalToolVersions('Java'), versionSpec)`). -/
structure Config where
  versionSpec : String
  jdkSourceOption : String
  jdkArchitectureOption : String
  jdkFile : String
  azureCommonVirtualFile : String
  extractLocation : String
  cleanDestinationDirectory : Bool
  cachedVersion : Option String

/-- The two environment variables published at the end of `getJava`:
`taskLib.setVariable('JAVA_HOME', jdkDirectory)` and
`taskLib.setVariable(extendedJavaHome, jdkDirectory)`. A `none` value
records that `jdkDirectory` was still the JavaScript `undefined` when it
was passed to `setVariable` (which then stores the empty string, since it
coerces a falsy value with `val || ''`). -/
structure Published where
  javaHome : Option String
  extendedName : String
  extendedValue : Option String
deriving DecidableEq, Repr

/-- JavaScript `String.prototype.endsWith(post)`: a case-sensitive suffix
test, expressed on the character lists of the two strings. -/
def strEndsWith (s post : String) : Bool := post.data.isSuffixOf s.data

/-- Function `getSupportedFileEnding(file)`: first supported suffix the name ends
with, else the `UnsupportedFileExtension` error. The source tests the
`find` result for truthiness; all endings are non-empty strings, so
truthiness coincides with `Option.isSome`. -/
def getSupportedFileEnding (file : String) : Except String String :=
  match supportedFileEndings.find? (fun ending => strEndsWith file ending) with
  | some fileEnding => Except.ok fileEnding
  | none => Except.error "UnsupportedFileExtension"

/-- Function `buildFilePath(localPathRoot, fileEnding, fileNameAndPath)`: join the
extract location with the last path segment of the blob name. -/
def buildFilePath (localPathRoot fileEnding fileNameAndPath : String) : String :=
  let fileName := (fileNameAndPath.split (fun c => c = '\\' ∨ c = '/')).getLastD ""
  pathJoin localPathRoot fileName

/-- Function `getVolumePath(volumes)`: diff the volumes root against the snapshot
taken before `attach`; exactly one new entry is required. -/
def getVolumePath (volumes volumesNow : List String) : Except String String :=
  let newVolumes := diffEntries volumes volumesNow
  if newVolumes.length ≠ 1 then Except.error "UnsupportedDMGStructure"
  else Except.ok (pathJoin VOLUMES_FOLDER (newVolumes.headD ""))

/-- Function `getPackagePath(volumePath)`: the unique `.pkg` entry of the mounted
volume, or an error when there are zero or several. -/
def getPackagePath (volumePath : String) (volumeEntries : List String) : Except String String :=
  let packages := volumeEntries.filter (fun file => strEndsWith file ".pkg")
  if packages.length = 1 then Except.ok (pathJoin volumePath (packages.headD ""))
  else if packages.length = 0 then Except.error "NoPKGFile"
  else Except.error "SeveralPKGFiles"

/-- Function `runPkgInstaller(pkgPath)`: the whole invocation of the `installer`
program is wrapped in `try { ... } catch (error) { taskLib.debug(...) }`,
so every rejection of the exec promise — launch failure or non-zero
exit — is swallowed and the function always resolves. -/
def runPkgInstaller (pkgPath : String) (installerResult : ExecOutcome) : Except String Unit :=
  match execPromise installerResult with
  | Except.ok () => Except.ok ()
  | Except.error _ => Except.ok ()

/-- Function `installPkg(pkgPath, extendedJavaHome, versionSpec)`. Returns the
resolved JDK directory, paired with whether the installer invocation was
reached (the `fs.existsSync` guard precedes it). -/
def installPkg (env : Env) (pkgPath extendedJavaHome versionSpec : String) :
    Except String String × Bool :=
  if env.fsExists pkgPath = false then
    (Except.error "PkgPathDoesNotExist", false)
  else
    match runPkgInstaller pkgPath env.installerResult with
    | Except.error e => (Except.error e, true)
    | Except.ok () =>
      let newJDKs := diffEntries env.jdksBefore env.jdksAfterInstall
      if newJDKs.length = 0 then
        match env.getVariable extendedJavaHome with
        | none => (Except.error "JavaNotPreinstalled", true)
        | some preInstalledJavaDirectory => (Except.ok preInstalledJavaDirectory, true)
      else
        (Except.ok (pathJoin (pathJoin JDK_FOLDER (newJDKs.headD "")) JDK_HOME_FOLDER), true)

/-- Function `installJDK(sourceFile, fileExtension, archiveExtractLocation,
extendedJavaHome, versionSpec)`, with the trace of privileged actions
reached. `attach` is awaited without a catch (its rejection propagates);
`detach` is wrapped in `try`/`catch` whose handler only logs. -/
def installJDK (env : Env)
    (sourceFile fileExtension archiveExtractLocation extendedJavaHome versionSpec : String) :
    Except String String × List TaskAction :=
  if fileExtension = ".dmg" ∧ env.platform = "darwin" then
    match execPromise env.attachResult with
    | Except.error e => (Except.error e, [TaskAction.attach])
    | Except.ok () =>
      match getVolumePath env.volumesBefore env.volumesAfterAttach with
      | Except.error e => (Except.error e, [TaskAction.attach])
      | Except.ok volumePath =>
        match getPackagePath volumePath env.volumeContents with
        | Except.error e => (Except.error e, [TaskAction.attach])
        | Except.ok pkgPath =>
          match installPkg env pkgPath extendedJavaHome versionSpec with
          | (Except.error e, invoked) =>
            (Except.error e, TaskAction.attach :: (if invoked then [TaskAction.runInstaller] else []))
          | (Except.ok jdkDirectory, invoked) =>
            match execPromise env.detachResult with
            | Except.ok () =>
              (Except.ok jdkDirectory,
                TaskAction.attach :: (if invoked then [TaskAction.runInstaller] else []) ++ [TaskAction.detach])
            | Except.error _ =>
              (Except.ok jdkDirectory,
                TaskAction.attach :: (if invoked then [TaskAction.runInstaller] else []) ++ [TaskAction.detach])
  else if fileExtension = ".pkg" ∧ env.platform = "darwin" then
    match installPkg env sourceFile extendedJavaHome versionSpec with
    | (r, invoked) => (r, if invoked then [TaskAction.runInstaller] else [])
  else
    (env.extractorResult, [])

/-- Function `getJava(versionSpec)`: branch on the source option (the local
tool-cache lookup short-circuits everything), then publish the two
environment variables from `jdkDirectory`. On the cache-hit branch the
source only logs and never assigns `jdkDirectory`, so the publication
step receives the `undefined` value (`none` here). The
`cleanDestinationDirectory` handling and the Azure download plus fixed
delay are filesystem-only effects with no influence on the modelled
values. `toolLib.prependPath(path.join(jdkDirectory, BIN_FOLDER))` runs
after both `setVariable` calls and is not part of the modelled result. -/
def getJava (cfg : Config) (env : Env) : Except String Published × List TaskAction :=
  let preInstalled := cfg.jdkSourceOption = "PreInstalled"
  let fromAzure := cfg.jdkSourceOption = "AzureStorage"
  let extendedJavaHome := "JAVA_HOME_" ++ cfg.versionSpec ++ "_" ++ cfg.jdkArchitectureOption
  let version := cfg.cachedVersion
  let branch : Except String (Option String) × List TaskAction :=
    if version.isSome then
      (Except.ok none, [])
    else if preInstalled then
      match env.getVariable extendedJavaHome with
      | none => (Except.error "JavaNotPreinstalled", [])
      | some preInstalledJavaDirectory => (Except.ok (some preInstalledJavaDirectory), [])
    else if fromAzure then
      match getSupportedFileEnding cfg.azureCommonVirtualFile with
      | Except.error e => (Except.error e, [])
      | Except.ok compressedFileExtension =>
        let extractSource :=
          buildFilePath cfg.extractLocation compressedFileExtension cfg.azureCommonVirtualFile
        match installJDK env extractSource compressedFileExtension cfg.extractLocation
            extendedJavaHome cfg.versionSpec with
        | (Except.error e, tr) => (Except.error e, tr)
        | (Except.ok d, tr) => (Except.ok (some d), tr)
    else
      match getSupportedFileEnding cfg.jdkFile with
      | Except.error e => (Except.error e, [])
      | Except.ok compressedFileExtension =>
        match installJDK env cfg.jdkFile compressedFileExtension cfg.extractLocation
            extendedJavaHome cfg.versionSpec with
        | (Except.error e, tr) => (Except.error e, tr)
        | (Except.ok d, tr) => (Except.ok (some d), tr)
  match branch with
  | (Except.error e, tr) => (Except.error e, tr)
  | (Except.ok jdkDirectory, tr) =>
    (Except.ok
      { javaHome := jdkDirectory
        extendedName := extendedJavaHome
        extendedValue := jdkDirectory }, tr)

/-- A baseline healthy environment: macOS, the attach step succeeds and
produces the single new volume "JDK 11" containing one package file, and
the installer run produces the single new JDK-root entry "jdk-11.jdk". -/
def baseEnv : Env :=
  { platform := "darwin"
    volumesBefore := ["Macintosh HD"]
    volumesAfterAttach := ["Macintosh HD", "JDK 11"]
    volumeContents := ["jdk.pkg"]
    jdksBefore := ["jdk-8.jdk"]
    jdksAfterInstall := ["jdk-8.jdk", "jdk-11.jdk"]
    getVariable := fun name => if name = "JAVA_HOME_11_x64" then some "/pre/jdk-11" else none
    fsExists := fun _ => true
    attachResult := ExecOutcome.exited 0
    installerResult := ExecOutcome.exited 0
    detachResult := ExecOutcome.exited 0
    extractorResult := Except.ok "/opt/jdk/extracted" }

def envC1 : Env := { baseEnv with jdksBefore := [], jdksAfterInstall := ["jdk-11.jdk", "jdk-17.jdk"] }

def envC2 : Env := { baseEnv with jdksAfterInstall := ["jdk-8.jdk"] }

def cfgC4 : Config :=
  { versionSpec := "8"
    jdkSourceOption := "LocalDirectory"
    jdkArchitectureOption := "x64"
    jdkFile := "/opt/jdk/jdk-8.tar.gz"
    azureCommonVirtualFile := ""
    extractLocation := "/opt/jdk"
    cleanDestinationDirectory := false
    cachedVersion := some "8.0.222" }

def envC5 : Env := { baseEnv with volumesAfterAttach := ["Macintosh HD"] }

def envC6 : Env := { baseEnv with installerResult := ExecOutcome.launchFailed "spawn installer ENOENT" }

def cfgC7 : Config :=
  { versionSpec := "11"
    jdkSourceOption := "LocalDirectory"
    jdkArchitectureOption := "x64"
    jdkFile := "/opt/jdk/jdk-11.exe"
    azureCommonVirtualFile := ""
    extractLocation := "/opt/jdk"
    cleanDestinationDirectory := false
    cachedVersion := none }

def envC8 : Env := { baseEnv with volumeContents := ["a.pkg", "b.pkg"] }

def envC9 : Env := { baseEnv with detachResult := ExecOutcome.exited 1 }

theorem runPkgInstaller_eq_ok (pkgPath : String) (r : ExecOutcome) :
    runPkgInstaller pkgPath r = Except.ok () := by
  unfold runPkgInstaller
  split <;> rfl

theorem find?_first_of_eq_some {α : Type} (p : α → Bool) :
    ∀ (l : List α) (a : α), l.find? p = some a →
      p a = true ∧ ∃ l₁ l₂, l = l₁ ++ a :: l₂ ∧ ∀ x ∈ l₁, p x = false := by
  intro l
  induction l with
  | nil => intro a h; simp at h
  | cons b bs ih =>
    intro a h
    by_cases hb : p b = true
    · rw [List.find?_cons_of_pos _ hb] at h
      cases h
      exact ⟨hb, [], bs, rfl, by simp⟩
    · have hb' : p b = false := by revert hb; cases p b <;> simp
      rw [List.find?_cons_of_neg _ hb] at h
      obtain ⟨hpa, l₁, l₂, hl, hl₁⟩ := ih a h
      refine ⟨hpa, b :: l₁, l₂, by rw [hl]; rfl, ?_⟩
      intro x hx
      rcases List.mem_cons.mp hx with rfl | hx
      · exact hb'
      · exact hl₁ x hx

/-- Claim C1 (counterexample): with two new entries in the JDK root after
the installer runs, `installPkg` does not fail with an ambiguous-install
error; it resolves by picking the first new entry. -/
theorem installPkg_two_new_entries_not_failed :
    (diffEntries envC1.jdksBefore envC1.jdksAfterInstall).length = 2 ∧
    (installPkg envC1 "/opt/jdk/jdk-11.pkg" "JAVA_HOME_11_x64" "11").1 =
      Except.ok "/Library/Java/JavaVirtualMachines/jdk-11.jdk/Contents/Home" := ⟨rfl, rfl⟩

/-- Claim C1 (amended): when the JDK-root diff yields more than one new
entry, the install does not fail: it resolves the JDK home as the JDK
root joined with the first new entry joined with `Contents/Home`. -/
theorem installPkg_multiple_new_entries_picks_first (env : Env)
    (pkgPath extendedJavaHome versionSpec : String)
    (hex : env.fsExists pkgPath = true)
    (hlen : 2 ≤ (diffEntries env.jdksBefore env.jdksAfterInstall).length) :
    (installPkg env pkgPath extendedJavaHome versionSpec).1 =
      Except.ok (pathJoin (pathJoin JDK_FOLDER
        ((diffEntries env.jdksBefore env.jdksAfterInstall).headD "")) JDK_HOME_FOLDER) := by
  have hne : ¬ (diffEntries env.jdksBefore env.jdksAfterInstall).length = 0 := by omega
  simp [installPkg, hex, runPkgInstaller_eq_ok, hne]

/-- Witness for the amended C1 theorem at a concrete environment. -/
theorem installPkg_multiple_new_entries_picks_first_witness :
    (installPkg envC1 "/opt/jdk/jdk-11.pkg" "JAVA_HOME_11_x64" "11").1 =
      Except.ok (pathJoin (pathJoin JDK_FOLDER
        ((diffEntries envC1.jdksBefore envC1.jdksAfterInstall).headD "")) JDK_HOME_FOLDER) :=
  installPkg_multiple_new_entries_picks_first envC1 "/opt/jdk/jdk-11.pkg" "JAVA_HOME_11_x64"
    "11" rfl (by decide)

/-- Claim C2: zero new entries after the installer is not automatically a
failure: `installPkg` looks up the extended-home variable
`JAVA_HOME_<version>_<arch>` and resolves to its value when it is set; it
fails with `JavaNotPreinstalled` only when the variable is unset. -/
theorem installPkg_zero_new_entries_probes_variable (env : Env)
    (pkgPath version arch versionSpec : String)
    (hex : env.fsExists pkgPath = true)
    (hdiff : diffEntries env.jdksBefore env.jdksAfterInstall = []) :
    (∀ d, env.getVariable ("JAVA_HOME_" ++ version ++ "_" ++ arch) = some d →
        (installPkg env pkgPath ("JAVA_HOME_" ++ version ++ "_" ++ arch) versionSpec).1 =
          Except.ok d) ∧
    (env.getVariable ("JAVA_HOME_" ++ version ++ "_" ++ arch) = none →
        (installPkg env pkgPath ("JAVA_HOME_" ++ version ++ "_" ++ arch) versionSpec).1 =
          Except.error "JavaNotPreinstalled") := by
  constructor
  · intro d hv
    simp [installPkg, hex, runPkgInstaller_eq_ok, hdiff, hv]
  · intro hv
    simp [installPkg, hex, runPkgInstaller_eq_ok, hdiff, hv]

/-- Witness for the C2 theorem at a concrete environment with a
registered pre-existing JDK. -/
theorem installPkg_zero_new_entries_probes_variable_witness :
    (installPkg envC2 "/opt/jdk/jdk-11.pkg" ("JAVA_HOME_" ++ "11" ++ "_" ++ "x64") "11").1 =
      Except.ok "/pre/jdk-11" :=
  (installPkg_zero_new_entries_probes_variable envC2 "/opt/jdk/jdk-11.pkg" "11" "x64" "11"
    rfl rfl).1 "/pre/jdk-11" (by decide)

/-- Claim C3: exactly one new entry X in the JDK-root diff resolves the
JDK home to the JDK root joined with X joined with `Contents/Home`. -/
theorem installPkg_single_new_entry_home (env : Env)
    (pkgPath extendedJavaHome versionSpec X : String)
    (hex : env.fsExists pkgPath = true)
    (hdiff : diffEntries env.jdksBefore env.jdksAfterInstall = [X]) :
    (installPkg env pkgPath extendedJavaHome versionSpec).1 =
      Except.ok (pathJoin (pathJoin JDK_FOLDER X) JDK_HOME_FOLDER) := by
  simp [installPkg, hex, runPkgInstaller_eq_ok, hdiff]

/-- Witness for the C3 theorem at a concrete environment. -/
theorem installPkg_single_new_entry_home_witness :
    (installPkg baseEnv "/opt/jdk/jdk-11.pkg" "JAVA_HOME_11_x64" "11").1 =
      Except.ok (pathJoin (pathJoin JDK_FOLDER "jdk-11.jdk") JDK_HOME_FOLDER) :=
  installPkg_single_new_entry_home baseEnv "/opt/jdk/jdk-11.pkg" "JAVA_HOME_11_x64" "11"
    "jdk-11.jdk" rfl (by decide)

/-- Claim C4 (refuted, code bug): on a local-tool-cache hit `getJava`
reaches the publication step with `jdkDirectory` never assigned, so both
environment variables are published with the unassigned (`undefined`)
value instead of a resolved JDK home path. -/
theorem getJava_cache_hit_publishes_unassigned :
    cfgC4.cachedVersion = some "8.0.222" ∧
    getJava cfgC4 baseEnv =
      (Except.ok { javaHome := none, extendedName := "JAVA_HOME_8_x64", extendedValue := none },
        []) := ⟨rfl, rfl⟩

/-- Claim C5: when the volumes-root diff across the attach step does not
yield exactly one new entry, `installJDK` fails with the
unsupported-disk-image-structure error and the installer is never
invoked. -/
theorem installJDK_ambiguous_mount_fails_before_install (env : Env)
    (sourceFile archiveExtractLocation extendedJavaHome versionSpec : String)
    (hplat : env.platform = "darwin")
    (hattach : execPromise env.attachResult = Except.ok ())
    (hdiff : (diffEntries env.volumesBefore env.volumesAfterAttach).length ≠ 1) :
    installJDK env sourceFile ".dmg" archiveExtractLocation extendedJavaHome versionSpec =
      (Except.error "UnsupportedDMGStructure", [TaskAction.attach]) ∧
    TaskAction.runInstaller ∉
      (installJDK env sourceFile ".dmg" archiveExtractLocation extendedJavaHome
        versionSpec).2 := by
  have h1 : installJDK env sourceFile ".dmg" archiveExtractLocation extendedJavaHome
      versionSpec = (Except.error "UnsupportedDMGStructure", [TaskAction.attach]) := by
    simp [installJDK, hplat, hattach, getVolumePath, hdiff]
  refine ⟨h1, ?_⟩
  rw [h1]
  decide

/-- Witness for the C5 theorem: the attach step produced no new volume. -/
theorem installJDK_ambiguous_mount_fails_before_install_witness :
    installJDK envC5 "/opt/jdk/jdk-11.dmg" ".dmg" "/opt/jdk" "JAVA_HOME_11_x64" "11" =
      (Except.error "UnsupportedDMGStructure", [TaskAction.attach]) ∧
    TaskAction.runInstaller ∉
      (installJDK envC5 "/opt/jdk/jdk-11.dmg" ".dmg" "/opt/jdk" "JAVA_HOME_11_x64" "11").2 :=
  installJDK_ambiguous_mount_fails_before_install envC5 "/opt/jdk/jdk-11.dmg" "/opt/jdk"
    "JAVA_HOME_11_x64" "11" rfl rfl (by decide)

/-- Claim C6 (counterexample): a failure to launch the installer program
(a spawn error before the installer starts) is swallowed by the catch in
`runPkgInstaller`, so it is not a hard failure, and `installPkg` still
resolves from the JDK-root diff. -/
theorem runPkgInstaller_launch_failure_not_hard :
    runPkgInstaller "/opt/jdk/jdk-11.pkg" (ExecOutcome.launchFailed "spawn installer ENOENT") =
      Except.ok () ∧
    (installPkg envC6 "/opt/jdk/jdk-11.pkg" "JAVA_HOME_11_x64" "11").1 =
      Except.ok "/Library/Java/JavaVirtualMachines/jdk-11.jdk/Contents/Home" := ⟨rfl, rfl⟩

/-- Claim C6 (amended): every failure of the installer invocation — a
launch failure just as much as a non-zero exit — is caught and is
non-fatal; the outcome of `installPkg` does not depend on the installer
invocation's outcome at all, only on the JDK-root diff. -/
theorem runPkgInstaller_failures_nonfatal :
    (∀ (pkgPath : String) (r : ExecOutcome), runPkgInstaller pkgPath r = Except.ok ()) ∧
    (∀ (env : Env) (pkgPath extendedJavaHome versionSpec : String) (r₁ r₂ : ExecOutcome),
        installPkg { env with installerResult := r₁ } pkgPath extendedJavaHome versionSpec =
        installPkg { env with installerResult := r₂ } pkgPath extendedJavaHome versionSpec) := by
  constructor
  · exact runPkgInstaller_eq_ok
  · intro env pkgPath extendedJavaHome versionSpec r₁ r₂
    cases env
    simp [installPkg, runPkgInstaller_eq_ok]

/-- Claim C7: classification scans the fixed suffix list and returns the
first suffix the name ends with (a case-sensitive suffix test); when no
suffix matches it fails with the unsupported-file-extension error, and in
`getJava` that failure aborts the run with an empty privileged-action
trace, i.e. before any privileged action, on both archive-file branches. -/
theorem getSupportedFileEnding_cases (file : String) :
    (∀ e, getSupportedFileEnding file = Except.ok e →
        strEndsWith file e = true ∧
        ∃ l₁ l₂, supportedFileEndings = l₁ ++ e :: l₂ ∧
          ∀ x ∈ l₁, strEndsWith file x = false) ∧
    ((∀ e ∈ supportedFileEndings, strEndsWith file e = false) →
        getSupportedFileEnding file = Except.error "UnsupportedFileExtension") ∧
    (∀ (cfg : Config) (env : Env), cfg.cachedVersion = none →
        cfg.jdkSourceOption = "AzureStorage" →
        getSupportedFileEnding cfg.azureCommonVirtualFile =
          Except.error "UnsupportedFileExtension" →
        getJava cfg env = (Except.error "UnsupportedFileExtension", [])) ∧
    (∀ (cfg : Config) (env : Env), cfg.cachedVersion = none →
        cfg.jdkSourceOption ≠ "PreInstalled" → cfg.jdkSourceOption ≠ "AzureStorage" →
        getSupportedFileEnding cfg.jdkFile = Except.error "UnsupportedFileExtension" →
        getJava cfg env = (Except.error "UnsupportedFileExtension", [])) := by
  refine ⟨?_, ?_, ?_, ?_⟩
  · intro e he
    unfold getSupportedFileEnding at he
    cases hf : supportedFileEndings.find? (fun ending => strEndsWith file ending) with
    | none => rw [hf] at he; cases he
    | some fe =>
      rw [hf] at he
      cases he
      obtain ⟨hp, l₁, l₂, hl, hl₁⟩ := find?_first_of_eq_some _ _ _ hf
      exact ⟨hp, l₁, l₂, hl, hl₁⟩
  · intro hall
    unfold getSupportedFileEnding
    have hnone : supportedFileEndings.find? (fun ending => strEndsWith file ending) = none :=
      List.find?_eq_none.mpr (fun x hx => by simp [hall x hx])
    rw [hnone]
  · intro cfg env hcache hsrc hclass
    simp [getJava, hcache, hsrc, hclass]
  · intro cfg env hcache hpre hazure hclass
    simp [getJava, hcache, hpre, hazure, hclass]

/-- Witness for the C7 theorem: a matching name resolves to its suffix
with no earlier suffix matching, and an `.exe` file aborts `getJava`
before any privileged action. -/
theorem getSupportedFileEnding_cases_witness :
    (strEndsWith "jdk-11.tar.gz" ".tar.gz" = true ∧
      ∃ l₁ l₂, supportedFileEndings = l₁ ++ ".tar.gz" :: l₂ ∧
        ∀ x ∈ l₁, strEndsWith "jdk-11.tar.gz" x = false) ∧
    getJava cfgC7 baseEnv = (Except.error "UnsupportedFileExtension", []) :=
  ⟨(getSupportedFileEnding_cases "jdk-11.tar.gz").1 ".tar.gz" rfl,
   (getSupportedFileEnding_cases "jdk-11.exe").2.2.2 cfgC7 baseEnv rfl (by decide) (by decide)
     rfl⟩

/-- Claim C8: package lookup on a mounted volume returns the unique
`.pkg` entry's path, fails with `NoPKGFile` on zero matches and with
`SeveralPKGFiles` on several, and in both failure cases `installJDK`
never invokes the installer. -/
theorem getPackagePath_unique_pkg (volumePath : String) (entries : List String) :
    (∀ p, entries.filter (fun file => strEndsWith file ".pkg") = [p] →
        getPackagePath volumePath entries = Except.ok (pathJoin volumePath p)) ∧
    (entries.filter (fun file => strEndsWith file ".pkg") = [] →
        getPackagePath volumePath entries = Except.error "NoPKGFile") ∧
    (2 ≤ (entries.filter (fun file => strEndsWith file ".pkg")).length →
        getPackagePath volumePath entries = Except.error "SeveralPKGFiles") ∧
    (∀ (env : Env) (sourceFile archiveExtractLocation extendedJavaHome versionSpec : String),
        env.volumeContents = entries →
        (entries.filter (fun file => strEndsWith file ".pkg")).length ≠ 1 →
        TaskAction.runInstaller ∉
          (installJDK env sourceFile ".dmg" archiveExtractLocation extendedJavaHome
            versionSpec).2) := by
  refine ⟨?_, ?_, ?_, ?_⟩
  · intro p hp
    simp [getPackagePath, hp]
  · intro hp
    simp [getPackagePath, hp]
  · intro hlen
    have h1 : ¬ (entries.filter (fun file => strEndsWith file ".pkg")).length = 1 := by omega
    have h0 : ¬ (entries.filter (fun file => strEndsWith file ".pkg")).length = 0 := by omega
    simp [getPackagePath, h1, h0]
  · intro env sourceFile archiveExtractLocation extendedJavaHome versionSpec hvol hlen
    have hpkg : ∀ vp, getPackagePath vp entries = Except.error "NoPKGFile" ∨
        getPackagePath vp entries = Except.error "SeveralPKGFiles" := by
      intro vp
      by_cases h0 : (entries.filter (fun file => strEndsWith file ".pkg")).length = 0
      · left; simp [getPackagePath, hlen, h0]
      · right; simp [getPackagePath, hlen, h0]
    by_cases hdmg : (".dmg" : String) = ".dmg" ∧ env.platform = "darwin"
    · cases hA : execPromise env.attachResult with
      | error e => simp [installJDK, hdmg, hA]
      | ok u =>
        cases u
        cases hV : getVolumePath env.volumesBefore env.volumesAfterAttach with
        | error e => simp [installJDK, hdmg, hA, hV]
        | ok vp =>
          rcases hpkg vp with hm | hm <;> simp [installJDK, hdmg, hA, hV, hvol, hm]
    · have hplat : ¬ env.platform = "darwin" := fun h => hdmg ⟨rfl, h⟩
      simp [installJDK, hplat]

/-- Witness for the C8 theorem: a volume with two package files fails
with the several-package-files error and the installer is not invoked. -/
theorem getPackagePath_unique_pkg_witness :
    getPackagePath "/Volumes/JDK 11" ["a.pkg", "b.pkg"] = Except.error "SeveralPKGFiles" ∧
    TaskAction.runInstaller ∉
      (installJDK envC8 "/opt/jdk/jdk-11.dmg" ".dmg" "/opt/jdk" "JAVA_HOME_11_x64" "11").2 :=
  ⟨(getPackagePath_unique_pkg "/Volumes/JDK 11" ["a.pkg", "b.pkg"]).2.2.1 (by decide),
   (getPackagePath_unique_pkg "/Volumes/JDK 11" ["a.pkg", "b.pkg"]).2.2.2 envC8
     "/opt/jdk/jdk-11.dmg" "/opt/jdk" "JAVA_HOME_11_x64" "11" rfl (by decide)⟩

/-- Claim C9: detach is best-effort. The outcome of `installJDK` never
depends on the detach result, and in particular when the package install
has resolved a JDK home and the detach step then fails, the resolved home
is still returned and the operation still succeeds (with the detach
having been attempted). -/
theorem installJDK_detach_best_effort :
    (∀ (env : Env) (sourceFile fileExtension archiveExtractLocation extendedJavaHome
        versionSpec : String) (d : ExecOutcome),
        (installJDK { env with detachResult := d } sourceFile fileExtension
          archiveExtractLocation extendedJavaHome versionSpec).1 =
        (installJDK env sourceFile fileExtension archiveExtractLocation extendedJavaHome
          versionSpec).1) ∧
    (∀ (env : Env) (sourceFile archiveExtractLocation extendedJavaHome versionSpec X
        msg : String),
        env.platform = "darwin" →
        execPromise env.attachResult = Except.ok () →
        (diffEntries env.volumesBefore env.volumesAfterAttach).length = 1 →
        (env.volumeContents.filter (fun file => strEndsWith file ".pkg")).length = 1 →
        (∀ p, env.fsExists p = true) →
        diffEntries env.jdksBefore env.jdksAfterInstall = [X] →
        execPromise env.detachResult = Except.error msg →
        (installJDK env sourceFile ".dmg" archiveExtractLocation extendedJavaHome
          versionSpec).1 = Except.ok (pathJoin (pathJoin JDK_FOLDER X) JDK_HOME_FOLDER) ∧
        TaskAction.detach ∈ (installJDK env sourceFile ".dmg" archiveExtractLocation
          extendedJavaHome versionSpec).2) := by
  constructor
  · rintro ⟨p, vb, va, vc, jb, ja, gv, fx, ar, ir, dr, er⟩ sf fe loc eh vs d
    by_cases h1 : fe = ".dmg" ∧ p = "darwin"
    · obtain ⟨he, hp⟩ := h1
      subst he
      subst hp
      cases hA : execPromise ar with
      | error e => simp [installJDK, hA]
      | ok u =>
        cases u
        cases hV : getVolumePath vb va with
        | error e => simp [installJDK, hA, hV]
        | ok vp =>
          cases hP : getPackagePath vp vc with
          | error e => simp [installJDK, hA, hV, hP]
          | ok pkgPath =>
            have hip : installPkg ⟨"darwin", vb, va, vc, jb, ja, gv, fx, ar, ir, d, er⟩
                  pkgPath eh vs =
                installPkg ⟨"darwin", vb, va, vc, jb, ja, gv, fx, ar, ir, dr, er⟩
                  pkgPath eh vs := rfl
            rcases hI : installPkg ⟨"darwin", vb, va, vc, jb, ja, gv, fx, ar, ir, dr, er⟩
              pkgPath eh vs with ⟨r, invoked⟩
            cases r with
            | error e => simp [installJDK, hA, hV, hP, hip, hI]
            | ok jdkDirectory =>
              cases hD1 : execPromise d <;> cases hD2 : execPromise dr <;>
                simp [installJDK, hA, hV, hP, hip, hI, hD1, hD2]
    · by_cases h2 : fe = ".pkg" ∧ p = "darwin"
      · obtain ⟨he, hp⟩ := h2
        subst he
        subst hp
        have hip : installPkg ⟨"darwin", vb, va, vc, jb, ja, gv, fx, ar, ir, d, er⟩ sf eh vs =
            installPkg ⟨"darwin", vb, va, vc, jb, ja, gv, fx, ar, ir, dr, er⟩ sf eh vs := rfl
        simp [installJDK, hip]
      · simp [installJDK, h1, h2]
  · intro env sourceFile archiveExtractLocation extendedJavaHome versionSpec X msg hplat
      hattach hvlen hplen hfs hdiff hdetach
    have h1 : installJDK env sourceFile ".dmg" archiveExtractLocation extendedJavaHome
        versionSpec =
        (Except.ok (pathJoin (pathJoin JDK_FOLDER X) JDK_HOME_FOLDER),
          [TaskAction.attach, TaskAction.runInstaller, TaskAction.detach]) := by
      simp [installJDK, hplat, hattach, getVolumePath, hvlen, getPackagePath, hplen,
        installPkg, hfs, runPkgInstaller_eq_ok, hdiff, hdetach]
    rw [h1]
    exact ⟨rfl, by simp⟩

/-- Witness for the C9 theorem: the detach tool exits non-zero yet the
resolved JDK home is still returned. -/
theorem installJDK_detach_best_effort_witness :
    (installJDK envC9 "/opt/jdk/jdk-11.dmg" ".dmg" "/opt/jdk" "JAVA_HOME_11_x64" "11").1 =
      Except.ok (pathJoin (pathJoin JDK_FOLDER "jdk-11.jdk") JDK_HOME_FOLDER) ∧
    TaskAction.detach ∈
      (installJDK envC9 "/opt/jdk/jdk-11.dmg" ".dmg" "/opt/jdk" "JAVA_HOME_11_x64" "11").2 :=
  installJDK_detach_best_effort.2 envC9 "/opt/jdk/jdk-11.dmg" "/opt/jdk" "JAVA_HOME_11_x64"
    "11" "jdk-11.jdk" "Process exited with code 1" rfl rfl (by decide) (by decide)
    (fun _ => rfl) (by decide) rfl

/-- Claim C10: the directory diff is a pure set difference on entry
names: membership in the diff is exactly "in the after snapshot and not
in the before snapshot", it is invariant under reordering of the entries
within each snapshot, and the diff of any snapshot with itself is empty. -/
theorem diffEntries_set_difference :
    (∀ (before after : List String) (x : String),
        x ∈ diffEntries before after ↔ (x ∈ after ∧ x ∉ before)) ∧
    (∀ (before before' after after' : List String),
        before.Perm before' → after.Perm after' →
        ∀ x, (x ∈ diffEntries before after ↔ x ∈ diffEntries before' after')) ∧
    (∀ s : List String, diffEntries s s = []) := by
  have hmem : ∀ (before after : List String) (x : String),
      x ∈ diffEntries before after ↔ (x ∈ after ∧ x ∉ before) := by
    intro b a x
    simp [diffEntries, List.mem_filter]
  refine ⟨hmem, ?_, ?_⟩
  · intro b b' a a' hb ha x
    rw [hmem, hmem, hb.mem_iff, ha.mem_iff]
  · intro s
    simp only [diffEntries]
    rw [List.filter_eq_nil_iff]
    intro a ha
    simp [ha]

/-- Witness for the C10 theorem on concrete permuted snapshots. -/
theorem diffEntries_set_difference_witness :
    ("c" ∈ diffEntries ["a", "b"] ["b", "c", "d"] ↔
      "c" ∈ diffEntries ["b", "a"] ["d", "b", "c"]) :=
  diffEntries_set_difference.2.1 ["a", "b"] ["b", "a"] ["b", "c", "d"] ["d", "b", "c"]
    (by decide) (by decide) "c"
